import Mathlib

/-!
Verification of the two utilities in this repository: the IPython
`snowsql` / `snowauth` magics (`snowflake_sql_magics.py`) and the notebook
converter (`convert_snowflake_notebook.py`).  Python text values are
modelled as `String` / `List Char`, the filesystem, the Snowflake
connection and statement execution as explicit oracles, and raised
exceptions as `Except`.
-/

set_option maxRecDepth 10000

/-- The single-quote character, written via its code point. -/
def squote : Char := Char.ofNat 39

/-- The double-quote character, written via its code point. -/
def dquote : Char := Char.ofNat 34

/-- Python `str.strip()` on a list of characters: drop whitespace from both
ends. -/
def pyStrip (l : List Char) : List Char :=
  ((l.dropWhile Char.isWhitespace).reverse.dropWhile Char.isWhitespace).reverse

/-- Python `str.strip()` on a `String`. -/
def pyStripS (s : String) : String := String.mk (pyStrip s.data)

/-!
## Statement splitting (`_snowflake_sql_executor`, lines 84-87)

The source splits with
`re.split(r";(?=(?:[^'\"]|'[^']*'|\"[^\"]*\")*$)", sql_query)`:
a semicolon is a split point exactly when the text after it matches
`(?:[^'"]|'[^']*'|"[^"]*")*$`, i.e. parses as a sequence of non-quote
characters and complete quoted spans.  That lookahead is deterministic, so
it is embedded as a direct scan.
-/

/-- Scan for the closing quote `q`: consume characters up to and including
the first occurrence of `q`, returning the remainder (`[^']*'` resp.
`[^"]*"` after the opening quote).  `none` when no closing quote exists. -/
def skipQuoted (q : Char) : List Char → Option (List Char)
  | [] => none
  | c :: rest => if c = q then some rest else skipQuoted q rest

/-- Fuelled matcher for the lookahead `(?:[^'"]|'[^']*'|"[^"]*")*$`.
The fuel only needs to be at least the length of the list; each step
consumes at least one character. -/
def suffixOkF : Nat → List Char → Bool
  | _, [] => true
  | 0, _ :: _ => false
  | n + 1, c :: rest =>
    if c = squote then
      match skipQuoted squote rest with
      | none => false
      | some rest2 => suffixOkF n rest2
    else if c = dquote then
      match skipQuoted dquote rest with
      | none => false
      | some rest2 => suffixOkF n rest2
    else suffixOkF n rest

/-- The regex lookahead of the statement splitter: does the text after a
semicolon match `(?:[^'"]|'[^']*'|"[^"]*")*$`? -/
def suffixOk (l : List Char) : Bool := suffixOkF l.length l

/-- `re.split` of the source: split at every semicolon whose suffix
satisfies the lookahead, keeping empty pieces (they are filtered later). -/
def rawSplit : List Char → List (List Char)
  | [] => [[]]
  | c :: rest =>
    if c == ';' && suffixOk rest then
      [] :: rawSplit rest
    else
      match rawSplit rest with
      | [] => [[c]]
      | p :: ps => (c :: p) :: ps

/-- Lines 86-87 of `snowflake_sql_magics.py`: split the block, strip each
piece, and discard pieces that are empty after stripping. -/
def splitStatements (s : String) : List String :=
  (((rawSplit s.data).map pyStrip).filter (fun p => !p.isEmpty)).map String.mk

/-!
## Spec-worded splitter

Modelled from the spec: "a SQL cell's text split on statement-terminating
semicolons that are not inside single- or double-quoted spans, each trimmed
and empty entries discarded. Order preserved."  "Inside a quoted span" is
read off a left-to-right scan that tracks whether the current position is
inside a single-quoted or double-quoted span.
-/

/-- Quote-tracking state for the spec's notion of "inside a quoted span". -/
inductive QState where
  | outside
  | inSingle
  | inDouble
deriving DecidableEq

/-- One step of the quote-tracking scan. -/
def qstep : QState → Char → QState
  | .outside, c =>
    if c = squote then .inSingle else if c = dquote then .inDouble else .outside
  | .inSingle, c => if c = squote then .outside else .inSingle
  | .inDouble, c => if c = dquote then .outside else .inDouble

/-- Run the quote-tracking scan over a list of characters. -/
def qscan : QState → List Char → QState
  | st, [] => st
  | st, c :: rest => qscan (qstep st c) rest

/-- A SQL block is quote-balanced when scanning it leaves every quoted span
closed. -/
def quoteBalanced (s : String) : Bool := qscan .outside s.data = .outside

/-- Modelled from the spec: split at exactly those semicolons at which the
quote scan is outside any quoted span. -/
def specRawSplit : QState → List Char → List (List Char)
  | _, [] => [[]]
  | st, c :: rest =>
    if c == ';' && st == QState.outside then
      [] :: specRawSplit st rest
    else
      match specRawSplit (qstep st c) rest with
      | [] => [[c]]
      | p :: ps => (c :: p) :: ps

/-- Modelled from the spec: the spec's statement batch — split on
semicolons not inside quoted spans, trim, discard empties, keep order. -/
def specSplitStatements (s : String) : List String :=
  (((specRawSplit .outside s.data).map pyStrip).filter (fun p => !p.isEmpty)).map
    String.mk

/-!
## File directives (`_process_file_directives`, lines 40-59)

`re.sub(r"FILE\((['\"])(.*?)\1\)", replace_directive, sql_query)`: the
substitution scans left to right; at a match `FILE(` + quote + shortest
content (no newline) up to the same quote followed by `)`, the whole match
is replaced by the result of reading the named file.  The filesystem is an
oracle `String → FileResult`.
-/

/-- Outcome of `open(file_path).read()` in `replace_directive`. -/
inductive FileResult where
  | found (content : String)
  | notFound
  | readError (msg : String)

/-- The non-greedy `(.*?)\1\)` part of the directive regex: scan for the
earliest occurrence of the quote `q` immediately followed by `)`, returning
the content before it and the remainder after the `)`.  Fails at a newline
(`.` does not match newlines) or at the end of the text. -/
def grabContent (q : Char) : List Char → Option (List Char × List Char)
  | [] => none
  | c :: rest =>
    if c = Char.ofNat 10 then none
    else if c = q ∧ rest.head? = some ')' then some ([], rest.tail)
    else (grabContent q rest).map (fun pr => (c :: pr.1, pr.2))

/-- Try to match the directive regex at the head of the text, returning the
captured content (group 2) and the text after the match. -/
def tryMatchFile : List Char → Option (List Char × List Char)
  | 'F' :: 'I' :: 'L' :: 'E' :: '(' :: q :: rest =>
    if q = squote ∨ q = dquote then grabContent q rest else none
  | _ => none

/-- The body of `replace_directive`: strip the captured path, read the file
through the oracle and build the replacement text. -/
def fileReplacement (fs : String → FileResult) (content : List Char) : List Char :=
  let path := String.mk (pyStrip content)
  match fs path with
  | .found c => ("PARSE_JSON($$" ++ c ++ "$$)").data
  | .notFound => ("/* FILE NOT FOUND: " ++ path ++ " */").data
  | .readError e => ("/* ERROR READING FILE " ++ path ++ ": " ++ e ++ " */").data

/-- Fuelled `re.sub` scan: at each position try the directive pattern; on a
match emit the replacement and continue after the match, otherwise emit the
character and advance by one.  Fuel at least the length of the text
suffices; each step consumes at least one character. -/
def pfdF (fs : String → FileResult) : Nat → List Char → List Char
  | _, [] => []
  | 0, l => l
  | n + 1, c :: rest =>
    match tryMatchFile (c :: rest) with
    | some (content, after) => fileReplacement fs content ++ pfdF fs n after
    | none => c :: pfdF fs n rest

/-- `_process_file_directives`: substitute every `FILE('path')` /
`FILE("path")` directive in the block. -/
def processFileDirectives (fs : String → FileResult) (s : String) : String :=
  String.mk (pfdF fs s.data.length s.data)

/-!
## Statement execution (`_snowflake_sql_executor`, lines 77-124)

Each statement's interaction with the Snowflake cursor is an oracle
`String → Except String CursorOutcome`: `.error` models `cur.execute`
raising, `.ok` gives the cursor's `rowcount`, whether `description` is
set, and the outcome of `fetch_pandas_all` (`.error ()` models
`NotSupportedError`).  A pandas DataFrame is its list of rows; `df.empty`
is list emptiness.
-/

/-- A pandas DataFrame, modelled as its rows. -/
abbrev Df := List (List String)

/-- A single element of the executor's `results` list: a DataFrame or a
string message. -/
inductive SqlResult where
  | df (d : Df)
  | msg (s : String)
deriving DecidableEq

/-- The observable behaviour of a cursor after `cur.execute(statement)`
succeeds. -/
structure CursorOutcome where
  rowcount : Int
  description : Bool
  fetchPandas : Except Unit Df

/-- `statement.strip().split(maxsplit=1)[0].upper()`: first
whitespace-delimited token, uppercased.  (The executor only receives
statements that are non-empty after stripping, so indexing is safe.) -/
def firstTokenUpper (s : String) : String :=
  String.mk (((pyStrip s.data).takeWhile (fun c => !c.isWhitespace)).map Char.toUpper)

/-- `message_map` of the executor. -/
def dmlLabel (t : String) : String :=
  if t = "INSERT" then "Number of rows inserted"
  else if t = "UPDATE" then "Number of rows updated"
  else if t = "DELETE" then "Number of rows deleted"
  else "Number of rows affected"

/-- The results appended for one successfully executed statement
(lines 96-120). -/
def stmtResults (stmt : String) (cur : CursorOutcome) : List SqlResult :=
  let t := firstTokenUpper stmt
  if t = "INSERT" ∨ t = "UPDATE" ∨ t = "DELETE" ∨ t = "MERGE" then
    [.msg (dmlLabel t ++ ": " ++ toString cur.rowcount)]
  else if cur.description then
    match cur.fetchPandas with
    | .ok d =>
      if !d.isEmpty then [.df d]
      else if t.data.take 4 = "SHOW".data then
        [.msg "Show command executed successfully, but it did not produce any results to display."]
      else []
    | .error _ => []
  else [.msg "Statement executed successfully."]

/-- The executor's loop over the statement batch: results accumulate in
order; the first raising statement aborts the loop and the exception
propagates, discarding all accumulated results. -/
def runStatements (exec : String → Except String CursorOutcome) :
    List String → Except String (List SqlResult)
  | [] => .ok []
  | s :: rest =>
    match exec s with
    | .error e => .error e
    | .ok cur =>
      match runStatements exec rest with
      | .error e => .error e
      | .ok rs => .ok (stmtResults s cur ++ rs)

/-!
## The `snowsql` cell magic (lines 184-235)
-/

/-- One observable output of the magic: a `print`, a `display` of a
DataFrame, or `traceback.print_exc()`. -/
inductive Output where
  | printed (s : String)
  | displayed (d : Df)
  | traceback
deriving DecidableEq

/-- What a `snowsql` invocation does: its outputs in order, and the
variable binding installed into `self.shell.user_ns` (if any). -/
structure RunOutcome where
  outputs : List Output
  bound : Option (String × SqlResult)

/-- `isinstance(res, pd.DataFrame)`. -/
def isDfRes : SqlResult → Bool
  | .df _ => true
  | .msg _ => false

/-- Lines 223-227: `display` a DataFrame, `print` a message. -/
def renderOne : SqlResult → Output
  | .df d => .displayed d
  | .msg m => .printed m

/-- The `snowsql` cell magic.  `initialized` is `self._initialized`;
`exec` and `fs` are the connection and filesystem oracles; `line` is the
magic line (its strip is the target variable name) and `cell` the SQL
block. -/
def snowsqlRun (initialized : Bool) (exec : String → Except String CursorOutcome)
    (fs : String → FileResult) (line cell : String) : RunOutcome :=
  let varName := pyStripS line
  if !initialized then
    ⟨[.printed "Error: Snowflake connection not initialized. Please run %snowauth first."],
      none⟩
  else
    match runStatements exec (splitStatements (processFileDirectives fs cell)) with
    | .error e => ⟨[.printed ("An error occurred: " ++ e), .traceback], none⟩
    | .ok results =>
      let dfr := results.filter isDfRes
      let bindOutputs : List Output :=
        if !varName.isEmpty then
          (if dfr.length > 1 then
            [.printed ("Warning: Multiple DataFrames returned, only the last one will be assigned to \x27" ++ varName ++ "\x27.")]
          else []) ++
          (match dfr.getLast? with
           | some _ => [.printed ("Result stored in DataFrame \x27" ++ varName ++ "\x27.")]
           | none => [.printed ("Warning: No DataFrame returned to assign to \x27" ++ varName ++ "\x27.")])
        else []
      let bound : Option (String × SqlResult) :=
        if !varName.isEmpty then dfr.getLast?.map (fun r => (varName, r)) else none
      let renderOutputs : List Output :=
        if !results.isEmpty then results.map renderOne
        else [.printed "Query executed successfully, but it did not produce any results to display."]
      ⟨bindOutputs ++ renderOutputs, bound⟩

/-!
## Connection initialization (`_initialize_connection`, lines 142-168, and
`_create_connection`, lines 61-75)
-/

/-- The magic's connection parameters and flags (`self.*`).  Parameter
values are Python strings-or-`None`. -/
structure MagState where
  connOpen : Option Bool
  initialized : Bool
  account : Option String
  user : Option String
  role : Option String
  private_key_path : Option String
  private_key_passphrase : Option String
deriving DecidableEq

/-- Python truthiness of a string-or-`None` value: `None` and the empty
string are falsy. -/
def pyTruthy : Option String → Bool
  | none => false
  | some s => !s.isEmpty

/-- Python `a or b` on string-or-`None` values. -/
def pyOr (a b : Option String) : Option String := if pyTruthy a then a else b

/-- Arguments parsed from the `%snowauth` line. -/
structure Args where
  account : Option String
  user : Option String
  role : Option String
  private_key_path : Option String
  private_key_passphrase : Option String

/-- Observable events of `_initialize_connection`. -/
inductive AuthEvent where
  | printed (s : String)
  | traceback
  | connectAttempt
deriving DecidableEq

/-- Lines 144-152: overwrite the five stored parameters from arguments
with environment-variable fallback. -/
def resolveParams (env : String → Option String) (st : MagState) (args : Args) :
    MagState :=
  { st with
    account := pyOr args.account (env "SNOWFLAKE_ACCOUNT")
    user := pyOr args.user (env "SNOWFLAKE_USER")
    role := pyOr args.role (env "SNOWFLAKE_ROLE")
    private_key_path := pyOr args.private_key_path (env "SNOWFLAKE_PRIVATE_KEY_PATH")
    private_key_passphrase :=
      pyOr args.private_key_passphrase (env "SNOWFLAKE_PRIVATE_KEY_PASSPHRASE") }

/-- Line 154: `not all([self.account, self.user, self.role,
self.private_key_path])`. -/
def requiredMissing (st : MagState) : Bool :=
  !(pyTruthy st.account && pyTruthy st.user && pyTruthy st.role &&
    pyTruthy st.private_key_path)

/-- `_create_connection`: open a new connection only when none exists or
the existing one is closed.  `connectR` is the outcome of
`snowflake.connector.connect` if it is called. -/
def createConnection (connectR : Except String Unit) (st : MagState) :
    Except String MagState × List AuthEvent :=
  match st.connOpen with
  | some true => (.ok st, [])
  | _ =>
    match connectR with
    | .ok _ => (.ok { st with connOpen := some true }, [.connectAttempt])
    | .error e => (.error e, [.connectAttempt])

/-- `_initialize_connection`: resolve parameters, check the four required
ones, then attempt (or skip) the connection. -/
def initializeConnection (env : String → Option String)
    (connectR : Except String Unit) (st : MagState) (args : Args) :
    MagState × List AuthEvent :=
  let st1 := resolveParams env st args
  let ev0 : List AuthEvent := [.printed "Initializing new Snowflake connection..."]
  if requiredMissing st1 then
    (st1, ev0 ++
      [.printed "Error: Missing connection parameters for initialization. Provide them as arguments or environment variables."])
  else
    match createConnection connectR st1 with
    | (.ok st2, evc) =>
      ({ st2 with initialized := true },
        ev0 ++ evc ++ [.printed "Snowflake connection successful."])
    | (.error e, evc) =>
      ({ st1 with initialized := false },
        ev0 ++ evc ++ [.printed ("An error occurred in initialization: " ++ e),
          .traceback])

/-!
## Notebook converter (`convert_snowflake_notebook.py`)

Notebook documents are JSON values; Python dicts are association lists in
insertion order (assignment replaces in place, new keys append at the
end).  Exceptions that would escape `convert_notebook` (e.g. `.setdefault`
on a non-dict, list concatenation with a non-list) are modelled with
`Except`.
-/

/-- A JSON value. -/
inductive Json where
  | null
  | bool (b : Bool)
  | num (n : Int)
  | str (s : String)
  | arr (items : List Json)
  | obj (fields : List (String × Json))

/-- Python `dict.get`: first binding of the key. -/
def lookupField : List (String × Json) → String → Option Json
  | [], _ => none
  | (k, v) :: rest, key => if k = key then some v else lookupField rest key

/-- Python `dict[key] = v`: replace the binding in place, else append. -/
def setField : List (String × Json) → String → Json → List (String × Json)
  | [], key, v => [(key, v)]
  | (k, w) :: rest, key, v =>
    if k = key then (key, v) :: rest else (k, w) :: setField rest key v

/-- An exception escaping the converter. -/
inductive PyErr where
  | attributeError
  | typeError
deriving DecidableEq

/-- The marker line prepended to converted SQL cells. -/
def snowsqlMarker : String := "%%snowsql\n"

/-- The per-cell conversion performed by the loop in lines 89-103: a code
cell whose metadata language is `"sql"` gets language `"python"` and the
marker prepended to its source; every other cell passes through.  A cell
or a present metadata value that is not a dict raises `AttributeError`. -/
def convertCell (cell : Json) : Except PyErr Json :=
  match cell with
  | .obj fields =>
    match lookupField fields "cell_type" with
    | some (.str t) =>
      if t = "code" then
        match lookupField fields "metadata" with
        | some (.obj m) =>
          match lookupField m "language" with
          | some (.str l) =>
            if l = "sql" then
              let m1 := setField m "language" (.str "python")
              let fields1 := setField fields "metadata" (.obj m1)
              let newSource : Json :=
                match lookupField fields1 "source" with
                | some (.str s) => .str (snowsqlMarker ++ s)
                | some (.arr items) => .arr (.str snowsqlMarker :: items)
                | some other => other
                | none => .arr [.str snowsqlMarker]
              .ok (.obj (setField fields1 "source" newSource))
            else .ok (.obj fields)
          | _ => .ok (.obj fields)
        | none => .ok (.obj fields)
        | some _ => .error .attributeError
      else .ok (.obj fields)
    | _ => .ok (.obj fields)
  | _ => .error .attributeError

/-- The loop over all cells; the first raising cell aborts the loop and
the exception escapes. -/
def convertCells : List Json → Except PyErr (List Json)
  | [] => .ok []
  | c :: rest =>
    match convertCell c with
    | .error e => .error e
    | .ok c1 =>
      match convertCells rest with
      | .error e => .error e
      | .ok rest1 => .ok (c1 :: rest1)

/-- The five fixed cells prepended by the converter (lines 36-84);
`ids n` stands for the `uuid.uuid4()` of the n-th new cell. -/
def newCells (ids : Nat → String) : List Json :=
  [ .obj [("cell_type", .str "markdown"), ("id", .str (ids 0)),
      ("source", .str "# Prepare python environment\nCreate a python virtual environment and install `ipykernel` package before running the notebook")],
    .obj [("cell_type", .str "code"), ("id", .str (ids 1)),
      ("metadata", .obj [("language", .str "python")]),
      ("source", .str "%%capture pip_install_output\n%pip install streamlit ipython")],
    .obj [("cell_type", .str "markdown"), ("id", .str (ids 2)),
      ("source", .str "Install snowflake sql magics extension and configure it to connect to your Snowflake account")],
    .obj [("cell_type", .str "code"), ("id", .str (ids 3)),
      ("metadata", .obj [("language", .str "python")]),
      ("source", .str "%reload_ext snowflake_sql_magics\nSNOWFLAKE_ACCOUNT = \x27<YOUR SNOWFLAKE ACCOUNT NAME>\x27\nSNOWFLAKE_USER = \x27<YOUR SNOWFLAKE USER NAME>\x27\nSNOWFLAKE_ROLE = \x27<SNOWFLAKE ROLE YOU WANT TO USE>\x27\nSNOWFLAKE_PRIVATE_KEY_PATH = \x27<PATH TO YOUR PRIVATE KEY FILE FOR KEY-PAIR AUTHENTICATION>\x27\n%snowauth --account $SNOWFLAKE_ACCOUNT --user $SNOWFLAKE_USER --role $SNOWFLAKE_ROLE --private_key_path $SNOWFLAKE_PRIVATE_KEY_PATH")],
    .obj [("cell_type", .str "markdown"), ("id", .str (ids 4)),
      ("source", .str "## Test the connection")],
    .obj [("cell_type", .str "code"), ("id", .str (ids 5)),
      ("metadata", .obj [("language", .str "python")]),
      ("source", .str "%%snowsql test_connection\nSELECT CURRENT_USER(), CURRENT_ROLE(), CURRENT_VERSION();")] ]

/-- The document transformation of `convert_notebook` (lines 86-103):
prepend the new cells (`setdefault` materialises a `cells` key first),
then run the conversion loop. -/
def convertNotebookDoc (ids : Nat → String) (nb : Json) : Except PyErr Json :=
  match nb with
  | .obj fields =>
    let fields1 :=
      match lookupField fields "cells" with
      | some _ => fields
      | none => setField fields "cells" (.arr [])
    match lookupField fields1 "cells" with
    | some (.arr items) =>
      match convertCells (newCells ids ++ items) with
      | .error e => .error e
      | .ok items1 => .ok (.obj (setField fields1 "cells" (.arr items1)))
    | some _ => .error .typeError
    | none => .error .typeError
  | _ => .error .attributeError

/-- Outcome of reading and JSON-decoding the input file. -/
inductive LoadResult where
  | fileNotFound
  | jsonError
  | ok (j : Json)

/-- Observable outcome of a `convert_notebook` call: the document written
to the output file (if any) and the printed messages. -/
structure ConvOutcome where
  written : Option Json
  messages : List String

/-- `convert_notebook`: load, transform, write.  `writeErr` is the
`IOError` raised by writing the output file, if any. -/
def convertNotebook (ids : Nat → String) (inputName outputName : String)
    (load : LoadResult) (writeErr : Option String) : Except PyErr ConvOutcome :=
  match load with
  | .fileNotFound => .ok ⟨none, ["Error: Input file not found at " ++ inputName]⟩
  | .jsonError => .ok ⟨none, ["Error: Could not decode JSON from " ++ inputName]⟩
  | .ok nb =>
    match convertNotebookDoc ids nb with
    | .error e => .error e
    | .ok out =>
      match writeErr with
      | none =>
        .ok ⟨some out,
          ["Successfully converted " ++ inputName ++ " to " ++ outputName]⟩
      | some e =>
        .ok ⟨none,
          ["Error writing to output file " ++ outputName ++ ": " ++ e]⟩

/-- A cell the converter can process without raising: a dict whose
metadata, when it is a code cell and the key is present, is itself a
dict. -/
def wfCell : Json → Bool
  | .obj fields =>
    match lookupField fields "cell_type" with
    | some (.str t) =>
      if t = "code" then
        match lookupField fields "metadata" with
        | some (.obj _) => true
        | none => true
        | some _ => false
      else true
    | _ => true
  | _ => false

/-- A code cell whose metadata language tag is `"sql"`. -/
def isSqlCell : Json → Bool
  | .obj fields =>
    (match lookupField fields "cell_type" with
     | some (.str t) => t = "code"
     | _ => false) &&
    (match lookupField fields "metadata" with
     | some (.obj m) =>
       match lookupField m "language" with
       | some (.str l) => l = "sql"
       | _ => false
     | _ => false)
  | _ => false

/-- The metadata language tag of a cell, when it is a string. -/
def cellLang : Json → Option String
  | .obj fields =>
    match lookupField fields "metadata" with
    | some (.obj m) =>
      match lookupField m "language" with
      | some (.str l) => some l
      | _ => none
    | _ => none
  | _ => none

/-- The source field of a cell. -/
def sourceOf : Json → Option Json
  | .obj fields => lookupField fields "source"
  | _ => none

/-- The source of a cell begins with the `%%snowsql` marker line, in
either the string or the list form. -/
def sourceHasMarker (c : Json) : Bool :=
  match sourceOf c with
  | some (.str s) => s.data.take snowsqlMarker.length = snowsqlMarker.data
  | some (.arr (.str s :: _)) => s = snowsqlMarker
  | _ => false

/-- The source of a cell is in one of the shapes a notebook uses: a
string, a list of lines, or absent. -/
def sourceFormOk (c : Json) : Bool :=
  match sourceOf c with
  | some (.str _) => true
  | some (.arr _) => true
  | none => true
  | some _ => false

/-!
## Concrete fixtures used to instantiate the theorems
-/

/-- A concrete filesystem oracle: `a.json` holds a small JSON object,
`e.json` raises a read error, `semi.json` holds text with a semicolon,
`nested.json` holds text that itself looks like a directive, everything
else is missing. -/
def fsEx : String → FileResult := fun path =>
  if path = "a.json" then .found "\x7b\"k\":1\x7d"
  else if path = "e.json" then .readError "boom"
  else if path = "semi.json" then .found "1;2"
  else if path = "nested.json" then .found "FILE(\x27a.json\x27)"
  else .notFound

/-- A concrete execution oracle: a working `SELECT`, a working `INSERT`,
everything else raises. -/
def execEx : String → Except String CursorOutcome := fun s =>
  if s = "SELECT 1" then .ok ⟨0, true, .ok [["1"]]⟩
  else if s = "INSERT INTO t VALUES (1)" then .ok ⟨1, true, .ok []⟩
  else .error "boom"

/-- A concrete id source for the converter's generated cells. -/
def ids0 : Nat → String := fun n => toString n

/-- A concrete SQL-tagged code cell with a string source. -/
def sqlCellEx : Json :=
  .obj [("cell_type", .str "code"), ("id", .str "c1"),
    ("metadata", .obj [("language", .str "sql")]),
    ("source", .str "SELECT 1;")]

/-- A concrete markdown cell. -/
def mdCellEx : Json :=
  .obj [("cell_type", .str "markdown"), ("id", .str "c0"), ("source", .str "hi")]

/-- A concrete notebook with one markdown cell, one SQL cell and an
unrecognized top-level key. -/
def nbEx : Json :=
  .obj [("nbformat", .num 4), ("cells", .arr [mdCellEx, sqlCellEx])]

/-- A concrete notebook with no SQL cells. -/
def nbNoSqlEx : Json :=
  .obj [("nbformat", .num 4), ("cells", .arr [mdCellEx])]

/-!
## Lemmas: the statement splitter
-/

theorem skipQuoted_length {q : Char} :
    ∀ {l r : List Char}, skipQuoted q l = some r → r.length < l.length := by
  intro l
  induction l with
  | nil => intro r h; simp [skipQuoted] at h
  | cons c rest ih =>
    intro r h
    simp only [skipQuoted] at h
    by_cases hc : c = q
    · rw [if_pos hc] at h
      cases h
      simp
    · rw [if_neg hc] at h
      exact Nat.lt_trans (ih h) (by simp)

theorem qstep_semi (st : QState) : qstep st ';' = st := by
  cases st <;> decide

theorem skipQuoted_single_none :
    ∀ {l : List Char}, skipQuoted squote l = none → qscan .inSingle l = .inSingle := by
  intro l
  induction l with
  | nil => intro _; rfl
  | cons c rest ih =>
    intro h
    simp only [skipQuoted] at h
    by_cases hc : c = squote
    · rw [if_pos hc] at h; cases h
    · rw [if_neg hc] at h
      simp only [qscan, qstep, if_neg hc]
      exact ih h

theorem skipQuoted_single_some :
    ∀ {l r : List Char}, skipQuoted squote l = some r →
      qscan .inSingle l = qscan .outside r := by
  intro l
  induction l with
  | nil => intro r h; simp [skipQuoted] at h
  | cons c rest ih =>
    intro r h
    simp only [skipQuoted] at h
    by_cases hc : c = squote
    · rw [if_pos hc] at h
      cases h
      simp only [qscan, qstep, if_pos hc]
    · rw [if_neg hc] at h
      simp only [qscan, qstep, if_neg hc]
      exact ih h

theorem skipQuoted_double_none :
    ∀ {l : List Char}, skipQuoted dquote l = none → qscan .inDouble l = .inDouble := by
  intro l
  induction l with
  | nil => intro _; rfl
  | cons c rest ih =>
    intro h
    simp only [skipQuoted] at h
    by_cases hc : c = dquote
    · rw [if_pos hc] at h; cases h
    · rw [if_neg hc] at h
      simp only [qscan, qstep, if_neg hc]
      exact ih h

theorem skipQuoted_double_some :
    ∀ {l r : List Char}, skipQuoted dquote l = some r →
      qscan .inDouble l = qscan .outside r := by
  intro l
  induction l with
  | nil => intro r h; simp [skipQuoted] at h
  | cons c rest ih =>
    intro r h
    simp only [skipQuoted] at h
    by_cases hc : c = dquote
    · rw [if_pos hc] at h
      cases h
      simp only [qscan, qstep, if_pos hc]
    · rw [if_neg hc] at h
      simp only [qscan, qstep, if_neg hc]
      exact ih h

theorem suffixOkF_iff :
    ∀ (n : Nat) (l : List Char), l.length ≤ n →
      (suffixOkF n l = true ↔ qscan .outside l = .outside) := by
  intro n
  induction n with
  | zero =>
    intro l hl
    have hnil : l = [] := List.eq_nil_of_length_eq_zero (Nat.le_zero.mp hl)
    subst hnil
    simp [suffixOkF, qscan]
  | succ n ih =>
    intro l hl
    cases l with
    | nil => simp [suffixOkF, qscan]
    | cons c rest =>
      have hrest : rest.length ≤ n := by simpa using hl
      by_cases hc : c = squote
      · subst hc
        cases hsq : skipQuoted squote rest with
        | none =>
          have h1 := skipQuoted_single_none hsq
          simp [suffixOkF, qscan, qstep, hsq, h1]
        | some rest2 =>
          have hlen : rest2.length ≤ n :=
            Nat.le_of_lt (Nat.lt_of_lt_of_le (skipQuoted_length hsq) hrest)
          have h2 := skipQuoted_single_some hsq
          simp [suffixOkF, qscan, qstep, hsq, h2, ih rest2 hlen]
      · by_cases hd : c = dquote
        · subst hd
          cases hsq : skipQuoted dquote rest with
          | none =>
            have h1 := skipQuoted_double_none hsq
            simp [suffixOkF, qscan, qstep, hc, hsq, h1]
          | some rest2 =>
            have hlen : rest2.length ≤ n :=
              Nat.le_of_lt (Nat.lt_of_lt_of_le (skipQuoted_length hsq) hrest)
            have h2 := skipQuoted_double_some hsq
            simp [suffixOkF, qscan, qstep, hc, hsq, h2, ih rest2 hlen]
        · have e1 : qstep .outside c = .outside := by simp [qstep, hc, hd]
          simp [suffixOkF, qscan, hc, hd, e1, ih rest hrest]

theorem suffixOk_iff (l : List Char) :
    suffixOk l = true ↔ qscan .outside l = .outside :=
  suffixOkF_iff l.length l le_rfl

theorem squote_ne_dquote : squote ≠ dquote := by decide

theorem qstep_injective {c : Char} {p q : QState} (h : qstep p c = qstep q c) :
    p = q := by
  by_cases hsq : c = squote
  · have hdq : ¬ c = dquote := fun hd => absurd (hsq.symm.trans hd) squote_ne_dquote
    cases p <;> cases q <;> simp_all [qstep]
  · by_cases hdq : c = dquote
    · cases p <;> cases q <;> simp_all [qstep]
    · cases p <;> cases q <;> simp_all [qstep]

theorem qscan_injective :
    ∀ (l : List Char) (p q : QState), qscan p l = qscan q l → p = q := by
  intro l
  induction l with
  | nil => intro p q h; exact h
  | cons c rest ih =>
    intro p q h
    simp only [qscan] at h
    exact qstep_injective (ih _ _ h)

theorem rawSplit_eq_specRawSplit :
    ∀ (l : List Char) (st : QState), qscan st l = .outside →
      rawSplit l = specRawSplit st l := by
  intro l
  induction l with
  | nil => intro st _; rfl
  | cons c rest ih =>
    intro st h
    simp only [qscan] at h
    by_cases hc : c = ';'
    · subst hc
      rw [qstep_semi] at h
      have hiff : suffixOk rest = (st == QState.outside) := by
        by_cases hst : st = QState.outside
        · subst hst
          rw [(suffixOk_iff rest).mpr h]
          rfl
        · have hsf : suffixOk rest = false := by
            cases hsf2 : suffixOk rest
            · rfl
            · exact absurd (qscan_injective rest QState.outside st
                (((suffixOk_iff rest).mp hsf2).trans h.symm)) (fun he => hst he.symm)
          rw [hsf]
          cases st with
          | outside => exact absurd rfl hst
          | inSingle => rfl
          | inDouble => rfl
      simp only [rawSplit, specRawSplit, qstep_semi, hiff, ih _ h]
    · have hb : (c == ';') = false := by simp [hc]
      simp only [rawSplit, specRawSplit, hb, Bool.false_and]
      rw [if_neg (by simp), if_neg (by simp), ih _ h]

/-- Claim C1, counterexample: on the block `a;'b` the single semicolon is
not inside any quoted span (the spec-worded splitter divides there), but
the source's splitter does not divide, because the regex lookahead fails on
the unbalanced suffix.  So the splitter does not divide on every semicolon
outside quoted spans. -/
theorem C1_counterexample :
    specSplitStatements "a;\x27b" = ["a", "\x27b"] ∧
    splitStatements "a;\x27b" = ["a;\x27b"] := by
  constructor
  · decide
  · decide

/-- Claim C1 (amended): for every quote-balanced SQL block (every quoted
span closed), the statement splitter divides exactly on the semicolons
that are not inside single- or double-quoted spans, trims each piece,
discards empty pieces and preserves order — it coincides with the
spec-worded splitter — and the input `SELECT ';' AS x; SELECT 2;` splits
into exactly two statements, the first retaining the quoted semicolon
intact. -/
theorem C1_split_equals_spec_on_balanced (s : String)
    (h : quoteBalanced s = true) :
    splitStatements s = specSplitStatements s ∧
    splitStatements "SELECT \x27;\x27 AS x; SELECT 2;" =
      ["SELECT \x27;\x27 AS x", "SELECT 2"] := by
  constructor
  · have hb : qscan .outside s.data = .outside := by
      simpa [quoteBalanced] using h
    unfold splitStatements specSplitStatements
    rw [rawSplit_eq_specRawSplit s.data .outside hb]
  · decide

/-- Witness for `C1_split_equals_spec_on_balanced` at the spec's concrete
example block. -/
theorem C1_witness :
    splitStatements "SELECT \x27;\x27 AS x; SELECT 2;" =
        specSplitStatements "SELECT \x27;\x27 AS x; SELECT 2;" ∧
      splitStatements "SELECT \x27;\x27 AS x; SELECT 2;" =
        ["SELECT \x27;\x27 AS x", "SELECT 2"] :=
  C1_split_equals_spec_on_balanced "SELECT \x27;\x27 AS x; SELECT 2;" (by decide)

/-!
## Lemmas: the file-directive transform
-/

theorem grabContent_length {q : Char} :
    ∀ {l : List Char} {pr : List Char × List Char},
      grabContent q l = some pr → pr.2.length < l.length := by
  intro l
  induction l with
  | nil => intro pr h; simp [grabContent] at h
  | cons c rest ih =>
    intro pr h
    simp only [grabContent] at h
    by_cases hnl : c = Char.ofNat 10
    · rw [if_pos hnl] at h; cases h
    · rw [if_neg hnl] at h
      by_cases hcl : c = q ∧ rest.head? = some ')'
      · rw [if_pos hcl] at h
        cases h
        simp only [List.length_cons, List.length_tail]
        omega
      · rw [if_neg hcl] at h
        rcases Option.map_eq_some'.mp h with ⟨pr2, hpr2, hback⟩
        subst hback
        have h2 := ih hpr2
        simp only [List.length_cons]
        exact Nat.lt_succ_of_lt h2

theorem grabContent_clean {q : Char} (hq : ¬ q = Char.ofNat 10) :
    ∀ (p : List Char) (rest : List Char),
      (∀ c ∈ p, ¬ c = q ∧ ¬ c = Char.ofNat 10) →
      grabContent q (p ++ q :: ')' :: rest) = some (p, rest) := by
  intro p
  induction p with
  | nil =>
    intro rest _
    rw [List.nil_append]
    simp [grabContent, hq]
  | cons c p ih =>
    intro rest hp
    have hc := hp c (List.mem_cons_self c p)
    rw [List.cons_append]
    simp only [grabContent, if_neg hc.2]
    rw [if_neg (fun hand => hc.1 hand.1)]
    rw [ih rest (fun d hd => hp d (List.mem_cons_of_mem c hd))]
    rfl

theorem tryMatchFile_length :
    ∀ {s : List Char} {pr : List Char × List Char},
      tryMatchFile s = some pr → pr.2.length < s.length := by
  intro s pr h
  unfold tryMatchFile at h
  split at h
  · rename_i q rest
    split at h
    · have := grabContent_length h
      simp only [List.length_cons]
      omega
    · cases h
  · cases h

theorem pfdF_fuel (fs : String → FileResult) :
    ∀ (n m : Nat) (l : List Char), l.length ≤ n → l.length ≤ m →
      pfdF fs n l = pfdF fs m l := by
  intro n
  induction n with
  | zero =>
    intro m l hn _
    have hnil : l = [] := List.eq_nil_of_length_eq_zero (Nat.le_zero.mp hn)
    subst hnil
    cases m <;> rfl
  | succ n ih =>
    intro m l hn hm
    cases l with
    | nil => cases m <;> rfl
    | cons c rest =>
      have hrest : rest.length ≤ n := by simpa using hn
      cases m with
      | zero => simp at hm
      | succ m' =>
        have hrest' : rest.length ≤ m' := by simpa using hm
        cases htm : tryMatchFile (c :: rest) with
        | none =>
          simp only [pfdF, htm]
          rw [ih m' rest hrest hrest']
        | some pr =>
          have hlen : pr.2.length ≤ rest.length := by
            have := tryMatchFile_length htm
            simp only [List.length_cons] at this
            omega
          simp only [pfdF, htm]
          rw [ih m' pr.2 (Nat.le_trans hlen hrest) (Nat.le_trans hlen hrest')]

theorem stringMk_append (a b : List Char) :
    String.mk a ++ String.mk b = String.mk (a ++ b) := rfl

theorem processFileDirectives_head (fs : String → FileResult) (q : Char)
    (p rest : List Char) (hq : q = squote ∨ q = dquote)
    (hp : ∀ c ∈ p, ¬ c = q ∧ ¬ c = Char.ofNat 10) :
    processFileDirectives fs
        (String.mk ('F' :: 'I' :: 'L' :: 'E' :: '(' :: q :: (p ++ q :: ')' :: rest))) =
      String.mk (fileReplacement fs p) ++ processFileDirectives fs (String.mk rest) := by
  have hqnl : ¬ q = Char.ofNat 10 := by
    rcases hq with h | h <;> subst h <;> decide
  have htm : tryMatchFile
      ('F' :: 'I' :: 'L' :: 'E' :: '(' :: q :: (p ++ q :: ')' :: rest)) =
      some (p, rest) := by
    simp only [tryMatchFile]
    rw [if_pos hq]
    exact grabContent_clean hqnl p rest hp
  have hcalc :
      pfdF fs (('F' :: 'I' :: 'L' :: 'E' :: '(' :: q :: (p ++ q :: ')' :: rest)).length)
        ('F' :: 'I' :: 'L' :: 'E' :: '(' :: q :: (p ++ q :: ')' :: rest)) =
      fileReplacement fs p ++ pfdF fs rest.length rest := by
    simp only [List.length_cons, pfdF, htm]
    congr 1
    exact pfdF_fuel fs _ rest.length rest
      (by simp only [List.length_append, List.length_cons]; omega) le_rfl
  show String.mk (pfdF fs
      (('F' :: 'I' :: 'L' :: 'E' :: '(' :: q :: (p ++ q :: ')' :: rest)).length)
      ('F' :: 'I' :: 'L' :: 'E' :: '(' :: q :: (p ++ q :: ')' :: rest))) = _
  rw [hcalc]
  rfl

/-- Claim C2: every `FILE('path')` or `FILE("path")` directive is replaced
by the named file's full text embedded in a dollar-quoted literal wrapped
in `PARSE_JSON`; a missing file becomes an inline comment containing
`FILE NOT FOUND` and the path; any other read error becomes an inline
comment with the error text; and the transform runs once over the whole
block before any statement splitting (a semicolon inside injected content
is subsequently split on, and injected directive-like text is not
re-expanded). -/
theorem C2_file_directive (fs : String → FileResult) (q : Char) (p rest : List Char)
    (hq : q = squote ∨ q = dquote)
    (hp : ∀ c ∈ p, ¬ c = q ∧ ¬ c = Char.ofNat 10) :
    (processFileDirectives fs
        (String.mk ('F' :: 'I' :: 'L' :: 'E' :: '(' :: q :: (p ++ q :: ')' :: rest))) =
      String.mk (fileReplacement fs p) ++ processFileDirectives fs (String.mk rest)) ∧
    processFileDirectives fsEx "FILE(\x27a.json\x27)" = "PARSE_JSON($$\x7b\"k\":1\x7d$$)" ∧
    processFileDirectives fsEx "FILE(\x27missing.json\x27)" =
      "/* FILE NOT FOUND: missing.json */" ∧
    processFileDirectives fsEx "FILE(\x27e.json\x27)" =
      "/* ERROR READING FILE e.json: boom */" ∧
    processFileDirectives fsEx "FILE(\x27nested.json\x27)" =
      "PARSE_JSON($$FILE(\x27a.json\x27)$$)" ∧
    splitStatements (processFileDirectives fsEx "SELECT FILE(\x27semi.json\x27)") =
      ["SELECT PARSE_JSON($$1", "2$$)"] :=
  ⟨processFileDirectives_head fs q p rest hq hp, by decide, by decide, by decide,
    by decide, by decide⟩

/-- Witness for `C2_file_directive` at the concrete directive
`FILE('a.json')`. -/
theorem C2_witness :
    processFileDirectives fsEx
        (String.mk ('F' :: 'I' :: 'L' :: 'E' :: '(' :: squote ::
          ("a.json".data ++ squote :: ')' :: []))) =
      String.mk (fileReplacement fsEx "a.json".data) ++
        processFileDirectives fsEx (String.mk []) :=
  (C2_file_directive fsEx squote "a.json".data [] (Or.inl rfl) (by decide)).1

/-!
## Lemmas: execution and the `snowsql` magic
-/

theorem runStatements_error (exec : String → Except String CursorOutcome) :
    ∀ (stmts1 : List String) (bad : String) (rest : List String) (e : String),
      (∀ s ∈ stmts1, ∃ c, exec s = .ok c) → exec bad = .error e →
      runStatements exec (stmts1 ++ bad :: rest) = .error e := by
  intro stmts1
  induction stmts1 with
  | nil =>
    intro bad rest e _ hbad
    simp only [List.nil_append, runStatements, hbad]
  | cons s stmts1 ih =>
    intro bad rest e hok hbad
    rcases hok s (List.mem_cons_self s stmts1) with ⟨c, hc⟩
    simp only [List.cons_append, runStatements, hc, List.append_eq,
      ih bad rest e (fun t ht => hok t (List.mem_cons_of_mem s ht)) hbad]

/-- Claim C3: when some statement of the block raises, the first failing
statement aborts the remaining statements (the outcome does not depend on
them), exactly one error with its trace is reported, results already
produced by earlier statements are discarded (nothing is rendered), and no
variable binding occurs. -/
theorem C3_first_failure_aborts (exec : String → Except String CursorOutcome)
    (fs : String → FileResult) (line cell : String)
    (stmts1 rest : List String) (bad e : String)
    (hsplit : splitStatements (processFileDirectives fs cell) =
      stmts1 ++ bad :: rest)
    (hok : ∀ s ∈ stmts1, ∃ c, exec s = .ok c)
    (hbad : exec bad = .error e) :
    snowsqlRun true exec fs line cell =
      ⟨[.printed ("An error occurred: " ++ e), .traceback], none⟩ := by
  have hrun : runStatements exec
      (splitStatements (processFileDirectives fs cell)) = .error e := by
    rw [hsplit]
    exact runStatements_error exec stmts1 bad rest e hok hbad
  simp [snowsqlRun, hrun]

/-- Witness for `C3_first_failure_aborts`: a block whose second statement
raises; the earlier `SELECT`'s table is discarded and nothing is bound. -/
theorem C3_witness :
    snowsqlRun true execEx fsEx "v" "SELECT 1; BOOM; SELECT 2" =
      ⟨[.printed "An error occurred: boom", .traceback], none⟩ :=
  C3_first_failure_aborts execEx fsEx "v" "SELECT 1; BOOM; SELECT 2"
    ["SELECT 1"] ["SELECT 2"] "BOOM" "boom" (by decide)
    (by
      intro s hs
      simp only [List.mem_singleton] at hs
      subst hs
      exact ⟨_, rfl⟩)
    rfl

theorem getLastMem {α : Type} :
    ∀ {l : List α} {a : α}, l.getLast? = some a → a ∈ l := by
  intro l
  induction l with
  | nil => intro a h; cases h
  | cons c rest ih =>
    intro a h
    cases rest with
    | nil =>
      simp only [List.getLast?_singleton, Option.some.injEq] at h
      simp [h]
    | cons d rest2 =>
      rw [List.getLast?_cons_cons] at h
      exact List.mem_cons_of_mem c (ih h)

/-- Claim C6: for an executed block with a non-empty target-variable name,
the binding installed into the session is exactly the last tabular
(DataFrame) result in execution order (none when there is no tabular
result); anything bound is a DataFrame drawn from the results, never a
message; more than one tabular result raises the only-the-last warning;
no tabular result raises the nothing-bound warning. -/
theorem C6_binds_last_dataframe (exec : String → Except String CursorOutcome)
    (fs : String → FileResult) (line cell : String) (results : List SqlResult)
    (hline : (pyStripS line).isEmpty = false)
    (hrun : runStatements exec (splitStatements (processFileDirectives fs cell)) =
      .ok results) :
    ((snowsqlRun true exec fs line cell).bound =
      (results.filter isDfRes).getLast?.map (fun r => (pyStripS line, r))) ∧
    (∀ r, (snowsqlRun true exec fs line cell).bound = some (pyStripS line, r) →
      isDfRes r = true ∧ r ∈ results) ∧
    (1 < (results.filter isDfRes).length →
      Output.printed ("Warning: Multiple DataFrames returned, only the last one will be assigned to \x27" ++ pyStripS line ++ "\x27.") ∈
        (snowsqlRun true exec fs line cell).outputs) ∧
    (results.filter isDfRes = [] →
      (snowsqlRun true exec fs line cell).bound = none ∧
      Output.printed ("Warning: No DataFrame returned to assign to \x27" ++ pyStripS line ++ "\x27.") ∈
        (snowsqlRun true exec fs line cell).outputs) := by
  refine ⟨?_, ?_, ?_, ?_⟩
  · simp [snowsqlRun, hrun, hline]
  · intro r hr
    simp only [snowsqlRun, hrun, hline] at hr
    simp only [Bool.not_true, Bool.false_eq_true, if_false, Bool.not_false,
      if_true] at hr
    rcases Option.map_eq_some'.mp hr with ⟨a, ha, hpair⟩
    have har : a = r := congrArg Prod.snd hpair
    subst har
    have hmem := getLastMem ha
    exact ⟨(List.mem_filter.mp hmem).2, (List.mem_filter.mp hmem).1⟩
  · intro hlen
    simp [snowsqlRun, hrun, hline, hlen]
  · intro hnil
    constructor
    · simp [snowsqlRun, hrun, hline, hnil]
    · simp [snowsqlRun, hrun, hline, hnil]

/-!
## Lemmas: connection initialization
-/

/-- Claim C5, counterexample: with the extension already initialized, an
authenticate call that is missing every required value reports the error
and attempts no connection, but the extension stays marked initialized —
it is not left UNINITIALIZED. -/
theorem C5_counterexample :
    (initializeConnection (fun _ => none) (.ok ())
        ⟨some true, true, some "a", some "u", some "r", some "k", none⟩
        ⟨none, none, none, none, none⟩).1.initialized = true ∧
    (initializeConnection (fun _ => none) (.ok ())
        ⟨some true, true, some "a", some "u", some "r", some "k", none⟩
        ⟨none, none, none, none, none⟩).2 =
      [.printed "Initializing new Snowflake connection...",
       .printed "Error: Missing connection parameters for initialization. Provide them as arguments or environment variables."] :=
  ⟨rfl, rfl⟩

/-- Shared helper: the outcome of `_initialize_connection` when the
required-value check fails. -/
theorem initializeConnection_missing (env : String → Option String)
    (connectR : Except String Unit) (st : MagState) (args : Args)
    (hmiss : requiredMissing (resolveParams env st args) = true) :
    initializeConnection env connectR st args =
      (resolveParams env st args,
        [.printed "Initializing new Snowflake connection...",
         .printed "Error: Missing connection parameters for initialization. Provide them as arguments or environment variables."]) := by
  simp [initializeConnection, hmiss]

/-- Claim C5 (amended): whenever one of the four required values (account,
user, role, private-key path) is missing from both arguments and
environment, the command reports the error, attempts no connection, and
leaves the initialized flag at its prior value (hence UNINITIALIZED
whenever it was not previously initialized); the stored parameters become
the freshly resolved values. -/
theorem C5_missing_params (env : String → Option String)
    (connectR : Except String Unit) (st : MagState) (args : Args)
    (hmiss : requiredMissing (resolveParams env st args) = true) :
    initializeConnection env connectR st args =
      (resolveParams env st args,
        [.printed "Initializing new Snowflake connection...",
         .printed "Error: Missing connection parameters for initialization. Provide them as arguments or environment variables."]) ∧
    (resolveParams env st args).initialized = st.initialized ∧
    (resolveParams env st args).connOpen = st.connOpen ∧
    AuthEvent.connectAttempt ∉ (initializeConnection env connectR st args).2 := by
  refine ⟨initializeConnection_missing env connectR st args hmiss, rfl, rfl, ?_⟩
  rw [initializeConnection_missing env connectR st args hmiss]
  simp

/-- Witness for `C5_missing_params`: an uninitialized extension, empty
environment and no arguments. -/
theorem C5_witness :
    initializeConnection (fun _ => none) (.ok ())
        ⟨none, false, none, none, none, none, none⟩
        ⟨none, none, none, none, none⟩ =
      (resolveParams (fun _ => none)
          ⟨none, false, none, none, none, none, none⟩
          ⟨none, none, none, none, none⟩,
        [.printed "Initializing new Snowflake connection...",
         .printed "Error: Missing connection parameters for initialization. Provide them as arguments or environment variables."]) ∧
    (resolveParams (fun _ => none)
        ⟨none, false, none, none, none, none, none⟩
        ⟨none, none, none, none, none⟩).initialized =
      (⟨none, false, none, none, none, none, none⟩ : MagState).initialized ∧
    (resolveParams (fun _ => none)
        ⟨none, false, none, none, none, none, none⟩
        ⟨none, none, none, none, none⟩).connOpen =
      (⟨none, false, none, none, none, none, none⟩ : MagState).connOpen ∧
    AuthEvent.connectAttempt ∉
      (initializeConnection (fun _ => none) (.ok ())
        ⟨none, false, none, none, none, none, none⟩
        ⟨none, none, none, none, none⟩).2 :=
  C5_missing_params (fun _ => none) (.ok ())
    ⟨none, false, none, none, none, none, none⟩
    ⟨none, none, none, none, none⟩ rfl

/-- Claim C10: every authenticate call overwrites the stored connection
parameters with the newly resolved argument/environment values before the
required-value check, and a failing check leaves the initialized flag at
its prior value — so after a successful authentication, a failing
re-authentication leaves the extension marked initialized while its
parameters have been replaced by the new, incomplete values. -/
theorem C10_params_overwritten_flag_kept (env : String → Option String)
    (connectR : Except String Unit) (st : MagState) (args : Args)
    (hmiss : requiredMissing (resolveParams env st args) = true)
    (hinit : st.initialized = true) :
    (initializeConnection env connectR st args).1.initialized = true ∧
    (initializeConnection env connectR st args).1.account =
      pyOr args.account (env "SNOWFLAKE_ACCOUNT") ∧
    (initializeConnection env connectR st args).1.user =
      pyOr args.user (env "SNOWFLAKE_USER") ∧
    (initializeConnection env connectR st args).1.role =
      pyOr args.role (env "SNOWFLAKE_ROLE") ∧
    (initializeConnection env connectR st args).1.private_key_path =
      pyOr args.private_key_path (env "SNOWFLAKE_PRIVATE_KEY_PATH") ∧
    (initializeConnection env connectR st args).1.private_key_passphrase =
      pyOr args.private_key_passphrase (env "SNOWFLAKE_PRIVATE_KEY_PASSPHRASE") := by
  rw [initializeConnection_missing env connectR st args hmiss]
  refine ⟨?_, ?_, ?_, ?_, ?_, ?_⟩ <;> simp [resolveParams, hinit]

/-- Witness for `C10_params_overwritten_flag_kept`: a previously
initialized extension re-authenticated with nothing supplied. -/
theorem C10_witness :
    (initializeConnection (fun _ => none) (.ok ())
        ⟨some true, true, some "a", some "u", some "r", some "k", none⟩
        ⟨none, none, none, none, none⟩).1.initialized = true ∧
    (initializeConnection (fun _ => none) (.ok ())
        ⟨some true, true, some "a", some "u", some "r", some "k", none⟩
        ⟨none, none, none, none, none⟩).1.account =
      pyOr none ((fun (_ : String) => (none : Option String)) "SNOWFLAKE_ACCOUNT") ∧
    (initializeConnection (fun _ => none) (.ok ())
        ⟨some true, true, some "a", some "u", some "r", some "k", none⟩
        ⟨none, none, none, none, none⟩).1.user =
      pyOr none ((fun (_ : String) => (none : Option String)) "SNOWFLAKE_USER") ∧
    (initializeConnection (fun _ => none) (.ok ())
        ⟨some true, true, some "a", some "u", some "r", some "k", none⟩
        ⟨none, none, none, none, none⟩).1.role =
      pyOr none ((fun (_ : String) => (none : Option String)) "SNOWFLAKE_ROLE") ∧
    (initializeConnection (fun _ => none) (.ok ())
        ⟨some true, true, some "a", some "u", some "r", some "k", none⟩
        ⟨none, none, none, none, none⟩).1.private_key_path =
      pyOr none ((fun (_ : String) => (none : Option String)) "SNOWFLAKE_PRIVATE_KEY_PATH") ∧
    (initializeConnection (fun _ => none) (.ok ())
        ⟨some true, true, some "a", some "u", some "r", some "k", none⟩
        ⟨none, none, none, none, none⟩).1.private_key_passphrase =
      pyOr none ((fun (_ : String) => (none : Option String)) "SNOWFLAKE_PRIVATE_KEY_PASSPHRASE") :=
  C10_params_overwritten_flag_kept (fun _ => none) (.ok ())
    ⟨some true, true, some "a", some "u", some "r", some "k", none⟩
    ⟨none, none, none, none, none⟩ rfl rfl

/-- Witness for `C6_binds_last_dataframe`: a block with one INSERT (a
row-count message) and one SELECT (a table); the table, not the message,
is bound. -/
theorem C6_witness :
    ((snowsqlRun true execEx fsEx "v" "INSERT INTO t VALUES (1); SELECT 1").bound =
      ([SqlResult.msg "Number of rows inserted: 1",
          SqlResult.df [["1"]]].filter isDfRes).getLast?.map
        (fun r => (pyStripS "v", r))) ∧
    (∀ r, (snowsqlRun true execEx fsEx "v" "INSERT INTO t VALUES (1); SELECT 1").bound =
        some (pyStripS "v", r) →
      isDfRes r = true ∧
        r ∈ [SqlResult.msg "Number of rows inserted: 1", SqlResult.df [["1"]]]) ∧
    (1 < ([SqlResult.msg "Number of rows inserted: 1",
        SqlResult.df [["1"]]].filter isDfRes).length →
      Output.printed ("Warning: Multiple DataFrames returned, only the last one will be assigned to \x27" ++ pyStripS "v" ++ "\x27.") ∈
        (snowsqlRun true execEx fsEx "v" "INSERT INTO t VALUES (1); SELECT 1").outputs) ∧
    ([SqlResult.msg "Number of rows inserted: 1",
        SqlResult.df [["1"]]].filter isDfRes = [] →
      (snowsqlRun true execEx fsEx "v" "INSERT INTO t VALUES (1); SELECT 1").bound = none ∧
      Output.printed ("Warning: No DataFrame returned to assign to \x27" ++ pyStripS "v" ++ "\x27.") ∈
        (snowsqlRun true execEx fsEx "v" "INSERT INTO t VALUES (1); SELECT 1").outputs) :=
  C6_binds_last_dataframe execEx fsEx "v" "INSERT INTO t VALUES (1); SELECT 1"
    [SqlResult.msg "Number of rows inserted: 1", SqlResult.df [["1"]]]
    (by decide) rfl

/-!
## Lemmas: the notebook converter
-/

theorem lookupField_setField_self :
    ∀ (l : List (String × Json)) (k : String) (v : Json),
      lookupField (setField l k v) k = some v := by
  intro l k v
  induction l with
  | nil => simp [setField, lookupField]
  | cons kv rest ih =>
    obtain ⟨k1, v1⟩ := kv
    simp only [setField]
    by_cases hk : k1 = k
    · rw [if_pos hk]
      simp [lookupField]
    · rw [if_neg hk]
      simp only [lookupField, if_neg hk]
      exact ih

theorem lookupField_setField_ne :
    ∀ (l : List (String × Json)) (k k2 : String) (v : Json), ¬ k = k2 →
      lookupField (setField l k v) k2 = lookupField l k2 := by
  intro l k k2 v hne
  induction l with
  | nil => simp [setField, lookupField, hne]
  | cons kv rest ih =>
    obtain ⟨k1, v1⟩ := kv
    simp only [setField]
    by_cases hk : k1 = k
    · rw [if_pos hk]
      subst hk
      simp only [lookupField, if_neg hne]
    · rw [if_neg hk]
      simp only [lookupField]
      by_cases hk2 : k1 = k2
      · rw [if_pos hk2, if_pos hk2]
      · rw [if_neg hk2, if_neg hk2]
        exact ih

theorem convertCell_unchanged :
    ∀ {c : Json}, wfCell c = true → isSqlCell c = false → convertCell c = .ok c := by
  intro c hwf hns
  cases c with
  | obj fields =>
    simp only [convertCell]
    cases hct : lookupField fields "cell_type" with
    | none => rfl
    | some v =>
      cases v with
      | str t =>
        dsimp only
        by_cases ht : t = "code"
        · subst ht
          rw [if_pos rfl]
          cases hmd : lookupField fields "metadata" with
          | none => rfl
          | some v2 =>
            cases v2 with
            | obj m =>
              dsimp only
              cases hlang : lookupField m "language" with
              | none => rfl
              | some v3 =>
                cases v3 with
                | str l =>
                  dsimp only
                  by_cases hl : l = "sql"
                  · subst hl
                    exfalso
                    simp [isSqlCell, hct, hmd, hlang] at hns
                  · rw [if_neg hl]
                | null => rfl
                | bool b => rfl
                | num n => rfl
                | arr a => rfl
                | obj o => rfl
            | null => simp [wfCell, hct, hmd] at hwf
            | bool b => simp [wfCell, hct, hmd] at hwf
            | num n => simp [wfCell, hct, hmd] at hwf
            | str s => simp [wfCell, hct, hmd] at hwf
            | arr a => simp [wfCell, hct, hmd] at hwf
        · rw [if_neg ht]
      | null => rfl
      | bool b => rfl
      | num n => rfl
      | arr a => rfl
      | obj o => rfl
  | null => simp [wfCell] at hwf
  | bool b => simp [wfCell] at hwf
  | num n => simp [wfCell] at hwf
  | str s => simp [wfCell] at hwf
  | arr a => simp [wfCell] at hwf

theorem isSqlCell_destruct {c : Json} (h : isSqlCell c = true) :
    ∃ fields m, c = .obj fields ∧
      lookupField fields "cell_type" = some (.str "code") ∧
      lookupField fields "metadata" = some (.obj m) ∧
      lookupField m "language" = some (.str "sql") := by
  cases c with
  | obj fields =>
    simp only [isSqlCell, Bool.and_eq_true] at h
    obtain ⟨h1, h2⟩ := h
    split at h1
    · rename_i t hct
      split at h2
      · rename_i m hmd
        split at h2
        · rename_i l hlang
          refine ⟨fields, m, rfl, ?_, hmd, ?_⟩
          · rw [hct, of_decide_eq_true h1]
          · rw [hlang, of_decide_eq_true h2]
        · cases h2
      · cases h2
    · cases h1
  | null => cases h
  | bool b => cases h
  | num n => cases h
  | str s => cases h
  | arr a => cases h

theorem sqlCellResult_props (fields m : List (String × Json)) (ns : Json)
    (hct : lookupField fields "cell_type" = some (.str "code")) :
    isSqlCell (.obj (setField (setField fields "metadata"
      (.obj (setField m "language" (.str "python")))) "source" ns)) = false ∧
    wfCell (.obj (setField (setField fields "metadata"
      (.obj (setField m "language" (.str "python")))) "source" ns)) = true ∧
    cellLang (.obj (setField (setField fields "metadata"
      (.obj (setField m "language" (.str "python")))) "source" ns)) = some "python" ∧
    sourceOf (.obj (setField (setField fields "metadata"
      (.obj (setField m "language" (.str "python")))) "source" ns)) = some ns := by
  have e0 : lookupField (setField (setField fields "metadata"
      (.obj (setField m "language" (.str "python")))) "source" ns) "cell_type" =
      some (.str "code") := by
    rw [lookupField_setField_ne _ _ _ _ (by decide),
      lookupField_setField_ne _ _ _ _ (by decide)]
    exact hct
  have e1 : lookupField (setField (setField fields "metadata"
      (.obj (setField m "language" (.str "python")))) "source" ns) "metadata" =
      some (.obj (setField m "language" (.str "python"))) := by
    rw [lookupField_setField_ne _ _ _ _ (by decide)]
    exact lookupField_setField_self _ _ _
  have e2 : lookupField (setField m "language" (.str "python")) "language" =
      some (.str "python") := lookupField_setField_self _ _ _
  have e3 : lookupField (setField (setField fields "metadata"
      (.obj (setField m "language" (.str "python")))) "source" ns) "source" =
      some ns := lookupField_setField_self _ _ _
  refine ⟨?_, ?_, ?_, ?_⟩
  · simp [isSqlCell, e0, e1, e2]
  · simp [wfCell, e0, e1]
  · simp [cellLang, e1, e2]
  · simp [sourceOf, e3]

theorem convertCell_sql (fields m : List (String × Json))
    (hct : lookupField fields "cell_type" = some (.str "code"))
    (hmd : lookupField fields "metadata" = some (.obj m))
    (hlang : lookupField m "language" = some (.str "sql")) :
    ∃ c2, convertCell (.obj fields) = .ok c2 ∧
      isSqlCell c2 = false ∧ wfCell c2 = true ∧
      cellLang c2 = some "python" ∧
      sourceOf c2 = some (match lookupField fields "source" with
        | some (.str s) => .str (snowsqlMarker ++ s)
        | some (.arr items) => .arr (.str snowsqlMarker :: items)
        | some other => other
        | none => .arr [.str snowsqlMarker]) := by
  have hsrc1 : lookupField (setField fields "metadata"
      (.obj (setField m "language" (.str "python")))) "source" =
      lookupField fields "source" := lookupField_setField_ne _ _ _ _ (by decide)
  have heq : convertCell (.obj fields) = .ok (.obj (setField (setField fields "metadata"
      (.obj (setField m "language" (.str "python")))) "source"
      (match lookupField (setField fields "metadata"
          (.obj (setField m "language" (.str "python")))) "source" with
        | some (.str s) => .str (snowsqlMarker ++ s)
        | some (.arr items) => .arr (.str snowsqlMarker :: items)
        | some other => other
        | none => .arr [.str snowsqlMarker]))) := by
    simp only [convertCell, hct, hmd, hlang, if_true]
  obtain ⟨p1, p2, p3, p4⟩ := sqlCellResult_props fields m
    (match lookupField (setField fields "metadata"
        (.obj (setField m "language" (.str "python")))) "source" with
      | some (.str s) => .str (snowsqlMarker ++ s)
      | some (.arr items) => .arr (.str snowsqlMarker :: items)
      | some other => other
      | none => .arr [.str snowsqlMarker]) hct
  refine ⟨_, heq, p1, p2, p3, ?_⟩
  rw [p4, hsrc1]

theorem convertCell_wf_props {c c2 : Json} (hwf : wfCell c = true)
    (h : convertCell c = .ok c2) :
    isSqlCell c2 = false ∧ (isSqlCell c = false → c2 = c) ∧ wfCell c2 = true := by
  cases hs : isSqlCell c with
  | true =>
    obtain ⟨fields, m, hceq, hct, hmd, hlang⟩ := isSqlCell_destruct hs
    subst hceq
    obtain ⟨c2', heq, p1, p2, p3, p4⟩ := convertCell_sql fields m hct hmd hlang
    rw [heq] at h
    cases h
    exact ⟨p1, fun habs => absurd habs (by simp [hs]), p2⟩
  | false =>
    rw [convertCell_unchanged hwf hs] at h
    cases h
    exact ⟨hs, fun _ => rfl, hwf⟩

theorem isSqlCell_lang {c : Json} (h : isSqlCell c = true) :
    cellLang c = some "sql" := by
  obtain ⟨fields, m, hceq, hct, hmd, hlang⟩ := isSqlCell_destruct h
  subst hceq
  simp [cellLang, hmd, hlang]

theorem convertCell_ok_of_wf {c : Json} (hwf : wfCell c = true) :
    ∃ c2, convertCell c = .ok c2 := by
  cases hs : isSqlCell c with
  | false => exact ⟨c, convertCell_unchanged hwf hs⟩
  | true =>
    obtain ⟨fields, m, hceq, hct, hmd, hlang⟩ := isSqlCell_destruct hs
    subst hceq
    obtain ⟨c2, heq, _⟩ := convertCell_sql fields m hct hmd hlang
    exact ⟨c2, heq⟩

theorem newCells_wf (ids : Nat → String) :
    ∀ c ∈ newCells ids, wfCell c = true ∧ isSqlCell c = false := by
  intro c hc
  simp only [newCells, List.mem_cons, List.not_mem_nil, or_false] at hc
  rcases hc with rfl | rfl | rfl | rfl | rfl | rfl <;> exact ⟨rfl, rfl⟩

theorem convertCells_ok_id :
    ∀ {l : List Json}, (∀ c ∈ l, convertCell c = .ok c) → convertCells l = .ok l := by
  intro l
  induction l with
  | nil => intro _; rfl
  | cons c rest ih =>
    intro h
    simp only [convertCells, h c (List.mem_cons_self c rest),
      ih (fun d hd => h d (List.mem_cons_of_mem c hd))]

theorem convertCells_ok_of_wf :
    ∀ {l : List Json}, (∀ c ∈ l, wfCell c = true) →
      ∃ l2, convertCells l = .ok l2 := by
  intro l
  induction l with
  | nil => intro _; exact ⟨[], rfl⟩
  | cons c rest ih =>
    intro h
    obtain ⟨c2, hc2⟩ := convertCell_ok_of_wf (h c (List.mem_cons_self c rest))
    obtain ⟨rest2, hrest2⟩ := ih (fun d hd => h d (List.mem_cons_of_mem c hd))
    exact ⟨c2 :: rest2, by simp only [convertCells, hc2, hrest2]⟩

theorem convertCells_append :
    ∀ {l1 l2 l1' l2' : List Json}, convertCells l1 = .ok l1' →
      convertCells l2 = .ok l2' → convertCells (l1 ++ l2) = .ok (l1' ++ l2') := by
  intro l1
  induction l1 with
  | nil =>
    intro l2 l1' l2' h1 h2
    cases h1
    simpa using h2
  | cons c rest ih =>
    intro l2 l1' l2' h1 h2
    simp only [convertCells] at h1
    cases hc : convertCell c with
    | error e => rw [hc] at h1; simp at h1
    | ok c2 =>
      rw [hc] at h1
      cases hr : convertCells rest with
      | error e => rw [hr] at h1; simp at h1
      | ok rest2 =>
        rw [hr] at h1
        dsimp only at h1
        cases h1
        simp only [List.cons_append, convertCells, hc, List.append_eq, ih hr h2]

theorem convertCells_get? :
    ∀ {l l' : List Json}, convertCells l = .ok l' →
      l'.length = l.length ∧
      ∀ i c, l.get? i = some c →
        ∃ c2, l'.get? i = some c2 ∧ convertCell c = .ok c2 := by
  intro l
  induction l with
  | nil =>
    intro l' h
    cases h
    exact ⟨rfl, fun i c hc => by simp at hc⟩
  | cons c rest ih =>
    intro l' h
    simp only [convertCells] at h
    cases hc : convertCell c with
    | error e => rw [hc] at h; simp at h
    | ok c2 =>
      rw [hc] at h
      cases hr : convertCells rest with
      | error e => rw [hr] at h; simp at h
      | ok rest2 =>
        rw [hr] at h
        dsimp only at h
        cases h
        obtain ⟨hlen, hpt⟩ := ih hr
        refine ⟨by simp [hlen], ?_⟩
        intro i d hd
        cases i with
        | zero =>
          simp only [List.get?] at hd ⊢
          cases hd
          exact ⟨c2, rfl, hc⟩
        | succ j =>
          simp only [List.get?] at hd ⊢
          exact hpt j d hd

theorem convertCells_mem :
    ∀ {l l' : List Json}, convertCells l = .ok l' →
      ∀ c2 ∈ l', ∃ c ∈ l, convertCell c = .ok c2 := by
  intro l
  induction l with
  | nil =>
    intro l' h
    cases h
    intro c2 hc2
    simp at hc2
  | cons c rest ih =>
    intro l' h
    simp only [convertCells] at h
    cases hc : convertCell c with
    | error e => rw [hc] at h; simp at h
    | ok c1 =>
      rw [hc] at h
      cases hr : convertCells rest with
      | error e => rw [hr] at h; simp at h
      | ok rest2 =>
        rw [hr] at h
        dsimp only at h
        cases h
        intro c2 hc2
        cases hc2 with
        | head => exact ⟨c, List.mem_cons_self c rest, hc⟩
        | tail _ hmem =>
          obtain ⟨d, hd, hconv⟩ := ih hr c2 hmem
          exact ⟨d, List.mem_cons_of_mem c hd, hconv⟩

theorem convertNotebookDoc_eq (ids : Nat → String) (fields : List (String × Json))
    (cells items2 : List Json)
    (hcells : lookupField fields "cells" = some (.arr cells))
    (hconv : convertCells (newCells ids ++ cells) = .ok items2) :
    convertNotebookDoc ids (.obj fields) =
      .ok (.obj (setField fields "cells" (.arr items2))) := by
  simp only [convertNotebookDoc, hcells, hconv]

theorem marker_take (s : String) :
    (snowsqlMarker ++ s).data.take snowsqlMarker.length = snowsqlMarker.data := by
  rw [String.data_append]
  exact List.take_left _ _

/-- Claim C4: every code cell with metadata language `"sql"` in a
well-formed input notebook is converted to a `"python"`-language cell whose
source begins with the `%%snowsql` marker line — collapsed to a prefixed
string for string sources, marker inserted first for list sources — and
after conversion no cell of the output is a sql-tagged code cell. -/
theorem C4_sql_cells_become_python (ids : Nat → String)
    (fields : List (String × Json)) (cells : List Json) (i : Nat) (cell : Json)
    (hcells : lookupField fields "cells" = some (.arr cells))
    (hwf : ∀ c ∈ cells, wfCell c = true)
    (hi : cells.get? i = some cell)
    (hsql : isSqlCell cell = true) :
    ∃ outCells cell2,
      convertNotebookDoc ids (.obj fields) =
        .ok (.obj (setField fields "cells" (.arr outCells))) ∧
      outCells.get? (i + 6) = some cell2 ∧
      convertCell cell = .ok cell2 ∧
      cellLang cell2 = some "python" ∧
      (∀ s, sourceOf cell = some (.str s) →
        sourceOf cell2 = some (.str (snowsqlMarker ++ s))) ∧
      (∀ its, sourceOf cell = some (.arr its) →
        sourceOf cell2 = some (.arr (.str snowsqlMarker :: its))) ∧
      (sourceFormOk cell = true → sourceHasMarker cell2 = true) ∧
      ∀ c2 ∈ outCells, isSqlCell c2 = false := by
  obtain ⟨cells2, hcells2⟩ := convertCells_ok_of_wf hwf
  have hnew : convertCells (newCells ids) = .ok (newCells ids) :=
    convertCells_ok_id (fun c hc => convertCell_unchanged (newCells_wf ids c hc).1
      (newCells_wf ids c hc).2)
  have happ : convertCells (newCells ids ++ cells) = .ok (newCells ids ++ cells2) :=
    convertCells_append hnew hcells2
  obtain ⟨hlen, hpt⟩ := convertCells_get? hcells2
  obtain ⟨cell2, hcell2get, hcell2conv⟩ := hpt i cell hi
  obtain ⟨flds, m, hceq, hct, hmd, hlang⟩ := isSqlCell_destruct hsql
  subst hceq
  obtain ⟨c2n, heqn, hnsn, hwfn, hlangn, hsrcn⟩ := convertCell_sql flds m hct hmd hlang
  have hc2eq : cell2 = c2n := by
    rw [heqn] at hcell2conv
    injection hcell2conv with h2
    exact h2.symm
  subst hc2eq
  have hidx : (newCells ids ++ cells2).get? (i + 6) = some cell2 := by
    rw [List.get?_append_right
      (by simp only [newCells, List.length_cons, List.length_nil]; omega)]
    simpa [newCells] using hcell2get
  refine ⟨newCells ids ++ cells2, cell2,
    convertNotebookDoc_eq ids fields cells _ hcells happ, hidx, hcell2conv,
    hlangn, ?_, ?_, ?_, ?_⟩
  · intro s hs
    have hs2 : lookupField flds "source" = some (.str s) := hs
    rw [hsrcn, hs2]
  · intro its hs
    have hs2 : lookupField flds "source" = some (.arr its) := hs
    rw [hsrcn, hs2]
  · intro hform
    simp only [sourceFormOk, sourceOf] at hform
    cases hsof : lookupField flds "source" with
    | none =>
      have : sourceOf cell2 = some (.arr [.str snowsqlMarker]) := by
        rw [hsrcn, hsof]
      simp [sourceHasMarker, this]
    | some v =>
      cases v with
      | str s =>
        have : sourceOf cell2 = some (.str (snowsqlMarker ++ s)) := by
          rw [hsrcn, hsof]
        simp [sourceHasMarker, this, marker_take]
      | arr its =>
        have : sourceOf cell2 = some (.arr (.str snowsqlMarker :: its)) := by
          rw [hsrcn, hsof]
        simp [sourceHasMarker, this]
      | null => rw [hsof] at hform; exact absurd hform (by simp)
      | bool b => rw [hsof] at hform; exact absurd hform (by simp)
      | num n => rw [hsof] at hform; exact absurd hform (by simp)
      | obj o => rw [hsof] at hform; exact absurd hform (by simp)
  · intro c2 hc2mem
    obtain ⟨c0, hc0mem, hc0conv⟩ := convertCells_mem happ c2 hc2mem
    have hc0wf : wfCell c0 = true := by
      rcases List.mem_append.mp hc0mem with hn | ho
      · exact (newCells_wf ids c0 hn).1
      · exact hwf c0 ho
    exact (convertCell_wf_props hc0wf hc0conv).1

/-- Witness for `C4_sql_cells_become_python`: a notebook whose second cell
is a sql-tagged code cell with a string source. -/
theorem C4_witness :
    ∃ outCells cell2,
      convertNotebookDoc ids0 (.obj [("nbformat", Json.num 4),
          ("cells", .arr [mdCellEx, sqlCellEx])]) =
        .ok (.obj (setField [("nbformat", Json.num 4),
          ("cells", .arr [mdCellEx, sqlCellEx])] "cells" (.arr outCells))) ∧
      outCells.get? (1 + 6) = some cell2 ∧
      convertCell sqlCellEx = .ok cell2 ∧
      cellLang cell2 = some "python" ∧
      (∀ s, sourceOf sqlCellEx = some (.str s) →
        sourceOf cell2 = some (.str (snowsqlMarker ++ s))) ∧
      (∀ its, sourceOf sqlCellEx = some (.arr its) →
        sourceOf cell2 = some (.arr (.str snowsqlMarker :: its))) ∧
      (sourceFormOk sqlCellEx = true → sourceHasMarker cell2 = true) ∧
      ∀ c2 ∈ outCells, isSqlCell c2 = false :=
  C4_sql_cells_become_python ids0
    [("nbformat", Json.num 4), ("cells", .arr [mdCellEx, sqlCellEx])]
    [mdCellEx, sqlCellEx] 1 sqlCellEx rfl
    (by
      intro c hc
      cases hc with
      | head => rfl
      | tail _ hc2 =>
        cases hc2 with
        | head => rfl
        | tail _ hc3 => cases hc3)
    rfl rfl

/-- Claim C7, counterexample: the converter prepends six fixed cells, not
five — already on an empty notebook the output gains six cells. -/
theorem C7_counterexample :
    convertNotebookDoc ids0 (.obj [("cells", .arr [])]) =
      .ok (.obj [("cells", .arr (newCells ids0))]) ∧
    (newCells ids0).length = 6 ∧ ¬ (newCells ids0).length = 5 :=
  ⟨rfl, rfl, by decide⟩

/-- Claim C7 (amended): for every well-formed input notebook without
sql-tagged code cells, the output equals the input with exactly six fixed
cells prepended at the front — the original cells appear unchanged after
them — and every top-level key other than the cell list is preserved
untouched. -/
theorem C7_frame_preservation (ids : Nat → String)
    (fields : List (String × Json)) (cells : List Json)
    (hcells : lookupField fields "cells" = some (.arr cells))
    (hwf : ∀ c ∈ cells, wfCell c = true ∧ isSqlCell c = false) :
    convertNotebookDoc ids (.obj fields) =
      .ok (.obj (setField fields "cells" (.arr (newCells ids ++ cells)))) ∧
    (newCells ids).length = 6 ∧
    (∀ k, ¬ k = "cells" →
      lookupField (setField fields "cells" (.arr (newCells ids ++ cells))) k =
        lookupField fields k) := by
  have hall : ∀ c ∈ newCells ids ++ cells, convertCell c = .ok c := by
    intro c hc
    rcases List.mem_append.mp hc with hn | ho
    · exact convertCell_unchanged (newCells_wf ids c hn).1 (newCells_wf ids c hn).2
    · exact convertCell_unchanged (hwf c ho).1 (hwf c ho).2
  refine ⟨convertNotebookDoc_eq ids fields cells _ hcells (convertCells_ok_id hall),
    rfl, ?_⟩
  intro k hk
  exact lookupField_setField_ne _ _ _ _ (fun h => hk h.symm)

/-- Witness for `C7_frame_preservation`: a notebook with one markdown cell
and an extra top-level key. -/
theorem C7_witness :
    convertNotebookDoc ids0 (.obj [("nbformat", Json.num 4),
        ("cells", .arr [mdCellEx])]) =
      .ok (.obj (setField [("nbformat", Json.num 4), ("cells", .arr [mdCellEx])]
        "cells" (.arr (newCells ids0 ++ [mdCellEx])))) ∧
    (newCells ids0).length = 6 ∧
    (∀ k, ¬ k = "cells" →
      lookupField (setField [("nbformat", Json.num 4), ("cells", .arr [mdCellEx])]
        "cells" (.arr (newCells ids0 ++ [mdCellEx]))) k =
        lookupField [("nbformat", Json.num 4), ("cells", .arr [mdCellEx])] k) :=
  C7_frame_preservation ids0 [("nbformat", Json.num 4), ("cells", .arr [mdCellEx])]
    [mdCellEx] rfl
    (by
      intro c hc
      cases hc with
      | head => exact ⟨rfl, rfl⟩
      | tail _ hc2 => cases hc2)

/-- Claim C9: re-running the converter leaves an already-converted cell
unchanged — the output of a successful cell conversion converts to itself —
and more generally any well-formed cell whose language is already
`"python"` (in particular one already bearing the marker) receives no
language change or marker insertion. -/
theorem C9_idempotent_on_converted (cin c2 : Json) (hwf : wfCell cin = true)
    (hconv : convertCell cin = .ok c2) :
    convertCell c2 = .ok c2 ∧
    (∀ d, wfCell d = true → cellLang d = some "python" → convertCell d = .ok d) := by
  obtain ⟨hns, _, hwf2⟩ := convertCell_wf_props hwf hconv
  refine ⟨convertCell_unchanged hwf2 hns, ?_⟩
  intro d hdwf hdlang
  apply convertCell_unchanged hdwf
  cases hs : isSqlCell d with
  | false => rfl
  | true =>
    have hl := isSqlCell_lang hs
    rw [hdlang] at hl
    exact absurd hl (by decide)

/-- Witness for `C9_idempotent_on_converted`: the converted form of the
concrete sql cell, which re-converts to itself. -/
theorem C9_witness :
    convertCell (Json.obj [("cell_type", Json.str "code"), ("id", Json.str "c1"),
        ("metadata", Json.obj [("language", Json.str "python")]),
        ("source", Json.str "%%snowsql\nSELECT 1;")]) =
      .ok (Json.obj [("cell_type", Json.str "code"), ("id", Json.str "c1"),
        ("metadata", Json.obj [("language", Json.str "python")]),
        ("source", Json.str "%%snowsql\nSELECT 1;")]) ∧
    (∀ d, wfCell d = true → cellLang d = some "python" → convertCell d = .ok d) :=
  C9_idempotent_on_converted sqlCellEx
    (Json.obj [("cell_type", Json.str "code"), ("id", Json.str "c1"),
      ("metadata", Json.obj [("language", Json.str "python")]),
      ("source", Json.str "%%snowsql\nSELECT 1;")]) rfl rfl

/-- Claim C8, counterexample: input content that is valid JSON but not a
notebook mapping (here a JSON array) is malformed document content, yet the
converter raises an uncaught exception (the Python `AttributeError` from
`notebook.setdefault`) instead of reporting a message — the exception
escapes to the caller. -/
theorem C8_counterexample :
    convertNotebook ids0 "in.ipynb" "out.ipynb" (.ok (.arr [])) none =
      .error .attributeError := rfl

/-- Claim C8 (amended): a missing input file, or content that fails JSON
decoding, is reported with a message, no output is written and no
exception escapes; an output write failure is reported with a message (and
nothing is written); but JSON content that is not a notebook mapping
escapes as an uncaught exception. -/
theorem C8_error_reporting (ids : Nat → String) (fin fout e : String)
    (nb out : Json) (hdoc : convertNotebookDoc ids nb = .ok out) :
    convertNotebook ids fin fout .fileNotFound none =
      .ok ⟨none, ["Error: Input file not found at " ++ fin]⟩ ∧
    convertNotebook ids fin fout .jsonError none =
      .ok ⟨none, ["Error: Could not decode JSON from " ++ fin]⟩ ∧
    convertNotebook ids fin fout (.ok nb) (some e) =
      .ok ⟨none, ["Error writing to output file " ++ fout ++ ": " ++ e]⟩ := by
  refine ⟨rfl, rfl, ?_⟩
  simp [convertNotebook, hdoc]

/-- Witness for `C8_error_reporting` at concrete file names and a concrete
well-formed notebook. -/
theorem C8_witness :
    convertNotebook ids0 "in.ipynb" "out.ipynb" .fileNotFound none =
      .ok ⟨none, ["Error: Input file not found at " ++ "in.ipynb"]⟩ ∧
    convertNotebook ids0 "in.ipynb" "out.ipynb" .jsonError none =
      .ok ⟨none, ["Error: Could not decode JSON from " ++ "in.ipynb"]⟩ ∧
    convertNotebook ids0 "in.ipynb" "out.ipynb" (.ok nbNoSqlEx) (some "disk full") =
      .ok ⟨none, ["Error writing to output file " ++ "out.ipynb" ++ ": " ++ "disk full"]⟩ :=
  C8_error_reporting ids0 "in.ipynb" "out.ipynb" "disk full" nbNoSqlEx
    (Json.obj [("nbformat", Json.num 4),
      ("cells", Json.arr (newCells ids0 ++ [mdCellEx]))]) rfl
